import Mathlib

/-!
Verification of the AeroStream PID flight-controller core.

The C++ source is embedded shallowly over `ℚ`:
  * `PID` mirrors the `PID` class of `include/PID.hpp` / the PID implementation
    unit; `PID.calculate` follows the body of `PID::calculate` step by step and
    returns `none` exactly on the division-by-zero branch (`_dt = 0`) of the
    derivative term.
  * `clamp` is `std::clamp` as specified by the C++ standard:
    `v < lo ? lo : hi < v ? hi : v`.
  * `MockSensor` mirrors `simulation/MockSensor.cpp`; the random source
    (`std::rand()`) is passed explicitly as a natural number.
  * `stepDriver` mirrors the step-change `main` variant of `src/main.cpp`.
  * The command-line parsing of the three `main` variants is embedded with each
    `argv[i]` replaced by the optional result of `std::stod` / `std::stoi`
    (`none` = the conversion throws), preserving the sequential
    assignment-then-throw semantics of the `try` block.
-/

namespace AeroStream

/-- `std::clamp(v, lo, hi)`: `v < lo ? lo : (hi < v ? hi : v)`. -/
def clamp (v lo hi : ℚ) : ℚ :=
  if v < lo then lo else if hi < v then hi else v

/-- The `PID` class state: gains, time step and output limits fixed at
construction, plus the two mutable fields `_pre_error` and `_integral`. -/
structure PID where
  kp : ℚ
  ki : ℚ
  kd : ℚ
  dt : ℚ
  maxOutput : ℚ
  minOutput : ℚ
  preError : ℚ
  integral : ℚ
deriving DecidableEq

/-- The constructor `PID::PID(kp, ki, kd, dt, max_output, min_output)`:
stores the six parameters and zero-initialises `_pre_error` and `_integral`.
It performs no validation (in particular `dt = 0` is accepted). -/
def PID.init (kp ki kd dt maxOutput minOutput : ℚ) : PID :=
  { kp := kp, ki := ki, kd := kd, dt := dt,
    maxOutput := maxOutput, minOutput := minOutput,
    preError := 0, integral := 0 }

/-- `PID::calculate(setpoint, pv)`, with the state mutation made explicit:
returns the clamped output together with the updated state.  The derivative
term divides by `_dt`; the `_dt = 0` case is the division-by-zero error branch
and is modelled as `none`. -/
def PID.calculate (s : PID) (setpoint pv : ℚ) : Option (ℚ × PID) :=
  let error := setpoint - pv
  let P := s.kp * error
  let integral := s.integral + error * s.dt
  let I := s.ki * integral
  if s.dt = 0 then
    none
  else
    let derivative := (error - s.preError) / s.dt
    let D := s.kd * derivative
    let output := P + I + D
    let clamped := clamp output s.minOutput s.maxOutput
    some (clamped, { s with preError := error, integral := integral })

/-- `PID::reset()`: zeroes `_integral` and `_pre_error`, touching nothing
else. -/
def PID.reset (s : PID) : PID :=
  { s with integral := 0, preError := 0 }

/-- Runs a list of `(setpoint, pv)` calls through the controller, collecting
the outputs; `none` if any call hits the division-by-zero branch. -/
def PID.runSeq (s : PID) : List (ℚ × ℚ) → Option (List ℚ × PID)
  | [] => some ([], s)
  | (sp, pv) :: rest =>
    match s.calculate sp pv with
    | none => none
    | some (o, s1) =>
      match s1.runSeq rest with
      | none => none
      | some (os, s2) => some (o :: os, s2)

/-- Iterates `calculate` with the same `(setpoint, pv)` arguments `n` times,
keeping only the evolving state. -/
def PID.iterCalc (s : PID) (sp pv : ℚ) : ℕ → Option PID
  | 0 => some s
  | n + 1 =>
    match s.iterCalc sp pv n with
    | none => none
    | some t =>
      match t.calculate sp pv with
      | none => none
      | some (_, t1) => t1

/-- The `MockSensor` state: the hidden `_value`. -/
structure MockSensor where
  value : ℚ
deriving DecidableEq

/-- `MockSensor::readValue()`: `noise = ((rand() % 100) / 100.0) - 0.5;
return _value + noise;`.  The value produced by `std::rand()` is the explicit
argument `r`; the returned pair carries the (unchanged) sensor state to make
the absence of mutation a provable statement. -/
def MockSensor.readValue (s : MockSensor) (r : ℕ) : ℚ × MockSensor :=
  let noise : ℚ := ((r % 100 : ℕ) : ℚ) / 100 - 0.5
  (s.value + noise, s)

/-- `MockSensor::update(step_value)`: `_value += step_value`. -/
def MockSensor.update (s : MockSensor) (stepValue : ℚ) : MockSensor :=
  { s with value := s.value + stepValue }

/-- One telemetry row: `Time,Target,Actual,Output`. -/
structure Telemetry where
  time : ℚ
  target : ℚ
  actual : ℚ
  output : ℚ
deriving DecidableEq

/-- The loop body of the step-change `main` variant, tick `i` onwards with
`fuel` ticks left: pick `target1` or `target2` by comparing `i` with
`switch_step`, read the sensor, run the controller, feed `output * dt` back
into the sensor, and append one telemetry row.  A division-by-zero failure of
`calculate` ends the run (that branch is unreachable for the driver's fixed
`dt = 0.1`). -/
def stepLoop (t1 t2 : ℚ) (switchStep : ℕ) (dt : ℚ) (noise : ℕ → ℕ)
    (pid : PID) (sensor : MockSensor) (i : ℕ) : ℕ → List Telemetry
  | 0 => []
  | fuel + 1 =>
    let currentTarget := if i < switchStep then t1 else t2
    let rd := sensor.readValue (noise i)
    match pid.calculate currentTarget rd.1 with
    | none => []
    | some (motorPower, pid1) =>
      { time := (i : ℚ) * dt, target := currentTarget,
        actual := rd.1, output := motorPower } ::
        stepLoop t1 t2 switchStep dt noise pid1
          (rd.2.update (motorPower * dt)) (i + 1) fuel

/-- The step-change `main` of `src/main.cpp`: `dt = 0.1`, limits `±500`,
sensor starting at `0`, `steps` ticks with the target switching from
`target1` to `target2` at tick `switch_step`. -/
def stepDriver (Kp Ki Kd : ℚ) (steps : ℕ) (target1 target2 : ℚ)
    (switchStep : ℕ) (noise : ℕ → ℕ) : List Telemetry :=
  let dt : ℚ := 0.1
  let pid := PID.init Kp Ki Kd dt 500 (-500)
  let sensor : MockSensor := ⟨0⟩
  stepLoop target1 target2 switchStep dt noise pid sensor 0 steps

/-- The configuration assembled by the step-change `main` variant, plus
whether the `catch` printed the `Invalid arguments. Using defaults.` warning
to `std::cerr`. -/
structure StepConfig where
  Kp : ℚ
  Ki : ℚ
  Kd : ℚ
  steps : ℤ
  target1 : ℚ
  target2 : ℚ
  switchStep : ℤ
  warned : Bool
deriving DecidableEq

/-- The defaults of the step-change `main`: `Kp=0.6, Ki=0.01, Kd=0.05,
steps=1000, target1=50, target2=100, switch_step=500`. -/
def stepDefaults : StepConfig :=
  { Kp := 0.6, Ki := 0.01, Kd := 0.05, steps := 1000,
    target1 := 50, target2 := 100, switchStep := 500, warned := false }

/-- Argument handling of the step-change `main`: if `argc >= 8`, assign the
seven conversions in order inside a `try`; the first failing conversion
aborts to the `catch` (printing the warning), keeping every assignment
already made.  Each `aᵢ` is `some v` when `std::stod`/`std::stoi` on
`argv[i]` yields `v`, `none` when it throws. -/
def parseStepArgs (argc : ℕ) (a1 a2 a3 : Option ℚ) (a4 : Option ℤ)
    (a5 a6 : Option ℚ) (a7 : Option ℤ) : StepConfig :=
  if 8 ≤ argc then
    match a1 with
    | none => { stepDefaults with warned := true }
    | some kp =>
      match a2 with
      | none => { stepDefaults with Kp := kp, warned := true }
      | some ki =>
        match a3 with
        | none => { stepDefaults with Kp := kp, Ki := ki, warned := true }
        | some kd =>
          match a4 with
          | none => { stepDefaults with
              Kp := kp, Ki := ki, Kd := kd, warned := true }
          | some st =>
            match a5 with
            | none => { stepDefaults with
                Kp := kp, Ki := ki, Kd := kd, steps := st, warned := true }
            | some t1 =>
              match a6 with
              | none => { stepDefaults with
                  Kp := kp, Ki := ki, Kd := kd, steps := st,
                  target1 := t1, warned := true }
              | some t2 =>
                match a7 with
                | none => { stepDefaults with
                    Kp := kp, Ki := ki, Kd := kd, steps := st,
                    target1 := t1, target2 := t2, warned := true }
                | some sw =>
                  { Kp := kp, Ki := ki, Kd := kd, steps := st,
                    target1 := t1, target2 := t2, switchStep := sw,
                    warned := false }
  else stepDefaults

/-- The configuration assembled by the constant-target `main` variant
(4 command-line values). -/
structure ConstConfig where
  Kp : ℚ
  Ki : ℚ
  Kd : ℚ
  steps : ℤ
  warned : Bool
deriving DecidableEq

/-- The defaults of the constant-target `main`: `Kp=0.6, Ki=0.01, Kd=0.05,
steps=200`. -/
def constDefaults : ConstConfig :=
  { Kp := 0.6, Ki := 0.01, Kd := 0.05, steps := 200, warned := false }

/-- Argument handling of the constant-target `main`: `argc >= 5` guards the
`try` block assigning `Kp, Ki, Kd, steps` in order. -/
def parseConstArgs (argc : ℕ) (a1 a2 a3 : Option ℚ) (a4 : Option ℤ) :
    ConstConfig :=
  if 5 ≤ argc then
    match a1 with
    | none => { constDefaults with warned := true }
    | some kp =>
      match a2 with
      | none => { constDefaults with Kp := kp, warned := true }
      | some ki =>
        match a3 with
        | none => { constDefaults with Kp := kp, Ki := ki, warned := true }
        | some kd =>
          match a4 with
          | none => { constDefaults with
              Kp := kp, Ki := ki, Kd := kd, warned := true }
          | some st =>
            { Kp := kp, Ki := ki, Kd := kd, steps := st, warned := false }
  else constDefaults

/-- The configuration assembled by the 5-argument `main` variant (adds
`target_altitude`). -/
structure TargetConfig where
  Kp : ℚ
  Ki : ℚ
  Kd : ℚ
  steps : ℤ
  targetAltitude : ℚ
  warned : Bool
deriving DecidableEq

/-- The defaults of the 5-argument `main`: `Kp=0.6, Ki=0.01, Kd=0.05,
steps=200, target_altitude=100`. -/
def targetDefaults : TargetConfig :=
  { Kp := 0.6, Ki := 0.01, Kd := 0.05, steps := 200,
    targetAltitude := 100, warned := false }

/-- Argument handling of the 5-argument `main`: `argc >= 6` guards the `try`
block assigning `Kp, Ki, Kd, steps, target_altitude` in order. -/
def parseTargetArgs (argc : ℕ) (a1 a2 a3 : Option ℚ) (a4 : Option ℤ)
    (a5 : Option ℚ) : TargetConfig :=
  if 6 ≤ argc then
    match a1 with
    | none => { targetDefaults with warned := true }
    | some kp =>
      match a2 with
      | none => { targetDefaults with Kp := kp, warned := true }
      | some ki =>
        match a3 with
        | none => { targetDefaults with Kp := kp, Ki := ki, warned := true }
        | some kd =>
          match a4 with
          | none => { targetDefaults with
              Kp := kp, Ki := ki, Kd := kd, warned := true }
          | some st =>
            match a5 with
            | none => { targetDefaults with
                Kp := kp, Ki := ki, Kd := kd, steps := st, warned := true }
            | some ta =>
              { Kp := kp, Ki := ki, Kd := kd, steps := st,
                targetAltitude := ta, warned := false }
  else targetDefaults

/-! ### Helper lemmas -/

/-- `clamp` stays inside `[lo, hi]` whenever `lo ≤ hi`. -/
theorem clamp_mem (v lo hi : ℚ) (h : lo ≤ hi) :
    lo ≤ clamp v lo hi ∧ clamp v lo hi ≤ hi := by
  unfold clamp
  split_ifs with h1 h2
  · exact ⟨le_refl lo, h⟩
  · exact ⟨h, le_refl hi⟩
  · exact ⟨le_of_not_lt h1, le_of_not_lt h2⟩

/-- `clamp` fixes any value already inside the interval. -/
theorem clamp_of_mem (v lo hi : ℚ) (h1 : lo ≤ v) (h2 : v ≤ hi) :
    clamp v lo hi = v := by
  unfold clamp
  split_ifs with hv1 hv2
  · linarith
  · linarith
  · rfl

/-- Closed form of one `calculate` call when `_dt ≠ 0`: the returned value is
the clamped PID formula and the state advances to the new integral and the
new previous error. -/
theorem PID.calculate_eq (s : PID) (sp pv : ℚ) (h : s.dt ≠ 0) :
    s.calculate sp pv =
      some (clamp (s.kp * (sp - pv) + s.ki * (s.integral + (sp - pv) * s.dt)
              + s.kd * ((sp - pv - s.preError) / s.dt)) s.minOutput s.maxOutput,
            { s with preError := sp - pv,
                     integral := s.integral + (sp - pv) * s.dt }) := by
  simp [PID.calculate, h]

/-- `calculate` hits the division-by-zero branch only at `_dt = 0`. -/
theorem PID.calculate_ne_none (s : PID) (sp pv : ℚ) (h : s.dt ≠ 0) :
    (s.calculate sp pv).isSome = true := by
  rw [PID.calculate_eq s sp pv h]
  rfl

/-! ### Claims -/

/-- C1: for every controller state `(accumulated_integral I, previous_error p)`
and all inputs `setpoint` and `measured_value`, one `calculate` call returns
`clamp(kp*e + ki*(I + e*dt) + kd*(e - p)/dt, output_min, output_max)` with
`e = setpoint - measured_value`, and leaves the state exactly
`(I + e*dt, e)`: the integral accumulates unconditionally before the clamp
and `previous_error` is committed to `e` regardless of clamping.  (The stated
construction precondition `time_step > 0` is weakened to `time_step ≠ 0`,
the exact reach of the division.) -/
theorem C1_calculate_formula (s : PID) (setpoint measured : ℚ)
    (h : s.dt ≠ 0) :
    s.calculate setpoint measured =
      some (clamp (s.kp * (setpoint - measured)
              + s.ki * (s.integral + (setpoint - measured) * s.dt)
              + s.kd * ((setpoint - measured - s.preError) / s.dt))
              s.minOutput s.maxOutput,
            { s with preError := setpoint - measured,
                     integral := s.integral + (setpoint - measured) * s.dt }) :=
  PID.calculate_eq s setpoint measured h

/-- Witness for C1 at a concrete controller and inputs. -/
theorem C1_witness :
    (PID.init 2 3 4 (1/2) 100 (-100)).dt ≠ 0 ∧
    (PID.init 2 3 4 (1/2) 100 (-100)).calculate 5 1 =
      some (46, ⟨2, 3, 4, 1/2, 100, -100, 4, 2⟩) := by
  constructor
  · norm_num [PID.init]
  · rw [C1_calculate_formula (PID.init 2 3 4 (1/2) 100 (-100)) 5 1
      (by norm_num [PID.init])]
    norm_num [PID.init, clamp]

/-- C2: whenever `output_min ≤ output_max`, every value returned by
`calculate` lies in `[output_min, output_max]`; and with `kp = 1000`,
`ki = kd = 0`, limits `[-50, 50]`, `calculate(100, 0)` returns exactly
`50`. -/
theorem C2_output_clamped :
    (∀ (s : PID) (sp pv o : ℚ) (s1 : PID),
        s.minOutput ≤ s.maxOutput → s.calculate sp pv = some (o, s1) →
        s.minOutput ≤ o ∧ o ≤ s.maxOutput)
    ∧ ((PID.init 1000 0 0 (1/10) 50 (-50)).calculate 100 0).map Prod.fst =
        some 50 := by
  constructor
  · intro s sp pv o s1 hlim hcalc
    by_cases hdt : s.dt = 0
    · simp [PID.calculate, hdt] at hcalc
    · rw [PID.calculate_eq s sp pv hdt] at hcalc
      simp only [Option.some.injEq, Prod.mk.injEq] at hcalc
      obtain ⟨rfl, -⟩ := hcalc
      exact clamp_mem _ _ _ hlim
  · norm_num [PID.init, PID.calculate, clamp]

/-- Witness for C2's clamping bound at the saturation test instance. -/
theorem C2_witness :
    (PID.init 1000 0 0 (1/10) 50 (-50)).minOutput ≤
      (PID.init 1000 0 0 (1/10) 50 (-50)).maxOutput ∧
    ((PID.init 1000 0 0 (1/10) 50 (-50)).minOutput ≤ 50 ∧
      (50 : ℚ) ≤ (PID.init 1000 0 0 (1/10) 50 (-50)).maxOutput) := by
  refine ⟨by norm_num [PID.init], ?_⟩
  exact C2_output_clamped.1 (PID.init 1000 0 0 (1/10) 50 (-50)) 100 0 50
    ⟨1000, 0, 0, 1/10, 50, -50, 100, 10⟩
    (by norm_num [PID.init])
    (by norm_num [PID.init, PID.calculate, clamp])

/-- Counterexample to C3 as stated: with limits `[1, 100]` (permitted, since
only `output_min ≤ output_max` is required at construction), `reset` followed
by `calculate(10, 10)` returns `1`, not `0` — the output of a zero-error call
is `clamp(0, output_min, output_max)`, which is nonzero when the interval
excludes `0`. -/
theorem C3_counterexample :
    ((PID.init 1 (1/10) (1/100) (1/10) 100 1).reset.calculate 10 10).map
      Prod.fst = some 1 ∧ (1 : ℚ) ≠ 0 := by
  norm_num [PID.init, PID.reset, PID.calculate, clamp]

/-- C3 (amended): `reset()` zeroes `accumulated_integral` and
`previous_error` and leaves the six construction parameters unchanged, so
the state equals a freshly constructed instance with the same parameters and
every subsequent call sequence matches the fresh instance; `reset` before any
`calculate` is a no-op; and `reset` followed by `calculate(x, x)` yields `0`
whenever `output_min ≤ 0 ≤ output_max` (and `time_step ≠ 0`). -/
theorem C3_reset_restores_fresh :
    (∀ s : PID, s.reset = PID.init s.kp s.ki s.kd s.dt s.maxOutput s.minOutput)
    ∧ (∀ s : PID, s.reset.integral = 0 ∧ s.reset.preError = 0 ∧
        s.reset.kp = s.kp ∧ s.reset.ki = s.ki ∧ s.reset.kd = s.kd ∧
        s.reset.dt = s.dt ∧ s.reset.minOutput = s.minOutput ∧
        s.reset.maxOutput = s.maxOutput)
    ∧ (∀ kp ki kd dt mx mn : ℚ,
        (PID.init kp ki kd dt mx mn).reset = PID.init kp ki kd dt mx mn)
    ∧ (∀ (s : PID) (x : ℚ), s.dt ≠ 0 → s.minOutput ≤ 0 → 0 ≤ s.maxOutput →
        (s.reset.calculate x x).map Prod.fst = some 0)
    ∧ (∀ (s : PID) (calls : List (ℚ × ℚ)),
        s.reset.runSeq calls =
          (PID.init s.kp s.ki s.kd s.dt s.maxOutput s.minOutput).runSeq
            calls) := by
  refine ⟨fun s => rfl, fun s => ⟨rfl, rfl, rfl, rfl, rfl, rfl, rfl, rfl⟩,
    fun kp ki kd dt mx mn => rfl, ?_, fun s calls => rfl⟩
  intro s x hdt hmn hmx
  rw [PID.calculate_eq s.reset x x (by simpa [PID.reset] using hdt)]
  simp only [PID.reset, Option.map_some]
  have hz : s.kp * (x - x) + s.ki * (0 + (x - x) * s.dt)
      + s.kd * ((x - x - 0) / s.dt) = 0 := by ring_nf
  rw [hz, clamp_of_mem 0 s.minOutput s.maxOutput hmn hmx]
  rfl

/-- Witness for C3's zero-output-after-reset clause at a concrete
controller. -/
theorem C3_witness :
    (PID.init 1 2 3 (1/10) 20 (-20)).dt ≠ 0 ∧
    (PID.init 1 2 3 (1/10) 20 (-20)).minOutput ≤ 0 ∧
    (0 : ℚ) ≤ (PID.init 1 2 3 (1/10) 20 (-20)).maxOutput ∧
    ((PID.init 1 2 3 (1/10) 20 (-20)).reset.calculate 7 7).map Prod.fst =
      some 0 := by
  refine ⟨by norm_num [PID.init], by norm_num [PID.init],
    by norm_num [PID.init], ?_⟩
  exact C3_reset_restores_fresh.2.2.2.1 (PID.init 1 2 3 (1/10) 20 (-20)) 7
    (by norm_num [PID.init]) (by norm_num [PID.init]) (by norm_num [PID.init])

/-- Counterexample to C4 as stated: the freshly constructed controller with
limits `[2, 100]` (valid: `output_min ≤ output_max`) returns
`clamp(0, 2, 100) = 2 ≠ 0` on its first zero-error call. -/
theorem C4_counterexample :
    ((PID.init 1 (1/10) (1/100) (1/10) 100 2).calculate 5 5).map Prod.fst =
      some 2 ∧ (2 : ℚ) ≠ 0 := by
  norm_num [PID.init, PID.calculate, clamp]

/-- C4 (amended): for every freshly constructed controller with any gains,
the first call `calculate(x, x)` returns `0`, provided
`output_min ≤ 0 ≤ output_max` (and `time_step ≠ 0`). -/
theorem C4_zero_error_zero_output (kp ki kd dt mx mn x : ℚ)
    (hdt : dt ≠ 0) (hmn : mn ≤ 0) (hmx : 0 ≤ mx) :
    ((PID.init kp ki kd dt mx mn).calculate x x).map Prod.fst = some 0 := by
  rw [PID.calculate_eq (PID.init kp ki kd dt mx mn) x x hdt]
  simp only [PID.init, Option.map_some]
  have hz : kp * (x - x) + ki * (0 + (x - x) * dt) + kd * ((x - x - 0) / dt)
      = 0 := by ring_nf
  rw [hz, clamp_of_mem 0 mn mx hmn hmx]
  rfl

/-- Witness for the amended C4 at the unit-test gains. -/
theorem C4_witness :
    (1 : ℚ)/10 ≠ 0 ∧ (-100 : ℚ) ≤ 0 ∧ (0 : ℚ) ≤ 100 ∧
    ((PID.init 1 (1/10) (1/100) (1/10) 100 (-100)).calculate 10 10).map
      Prod.fst = some 0 := by
  refine ⟨by norm_num, by norm_num, by norm_num, ?_⟩
  exact C4_zero_error_zero_output 1 (1/10) (1/100) (1/10) 100 (-100) 10
    (by norm_num) (by norm_num) (by norm_num)

/-- Closed form of the state after `n` identical `calculate` calls: the
gains and limits never change and the integral grows linearly by
`error * dt` per call. -/
theorem PID.iterCalc_spec (s : PID) (sp pv : ℚ) (h : s.dt ≠ 0) :
    ∀ n : ℕ, ∃ t : PID, s.iterCalc sp pv n = some t ∧
      t.kp = s.kp ∧ t.ki = s.ki ∧ t.kd = s.kd ∧ t.dt = s.dt ∧
      t.maxOutput = s.maxOutput ∧ t.minOutput = s.minOutput ∧
      t.integral = s.integral + n * ((sp - pv) * s.dt) := by
  intro n
  induction n with
  | zero => exact ⟨s, rfl, rfl, rfl, rfl, rfl, rfl, rfl, by push_cast; ring⟩
  | succ n ih =>
    obtain ⟨t, ht, hkp, hki, hkd, hdt, hmx, hmn, hint⟩ := ih
    refine ⟨{ t with preError := sp - pv, integral := t.integral + (sp - pv) * t.dt }, ?_, hkp, hki, hkd, hdt, hmx, hmn, ?_⟩
    · show (match s.iterCalc sp pv n with
          | none => none
          | some t =>
            match t.calculate sp pv with
            | none => none
            | some (_, t1) => some t1) = _
      rw [ht]
      show (match t.calculate sp pv with
          | none => none
          | some (_, t1) => some t1) = _
      rw [PID.calculate_eq t sp pv (by rw [hdt]; exact h)]
    · simp only [hint, hdt]
      push_cast
      ring

/-- C5: with `kp = kd = 0`, `ki > 0` and `time_step > 0`, feeding the same
fixed positive error into successive `calculate` calls makes the pre-clamp
outputs — `gain_i × accumulated_integral` after each call, which is exactly
what each call clamps — strictly increase from each call to the next
(unconditionally, hence in particular until the output saturates at
`output_max`). -/
theorem C5_integral_monotone (s : PID) (sp pv : ℚ) (n : ℕ)
    (hkp : s.kp = 0) (hkd : s.kd = 0) (hki : 0 < s.ki) (hdt : 0 < s.dt)
    (he : 0 < sp - pv) :
    ∃ t u : PID,
      s.iterCalc sp pv (n + 1) = some t ∧
      s.iterCalc sp pv (n + 2) = some u ∧
      t.calculate sp pv =
        some (clamp (s.ki * u.integral) s.minOutput s.maxOutput, u) ∧
      s.ki * t.integral < s.ki * u.integral := by
  have hdt' : s.dt ≠ 0 := ne_of_gt hdt
  obtain ⟨t, ht, htkp, htki, htkd, htdt, htmx, htmn, htint⟩ :=
    PID.iterCalc_spec s sp pv hdt' (n + 1)
  have hcalc := PID.calculate_eq t sp pv (by rw [htdt]; exact hdt')
  set u : PID := { t with preError := sp - pv, integral := t.integral + (sp - pv) * t.dt } with hu
  have huint : u.integral = t.integral + (sp - pv) * s.dt := by
    simp [hu, htdt]
  refine ⟨t, u, ht, ?_, ?_, ?_⟩
  · show (match s.iterCalc sp pv (n + 1) with
        | none => none
        | some t =>
          match t.calculate sp pv with
          | none => none
          | some (_, t1) => some t1) = _
    rw [ht]
    show (match t.calculate sp pv with
        | none => none
        | some (_, t1) => some t1) = _
    rw [hcalc]
  · rw [hcalc]
    have : t.kp * (sp - pv) + t.ki * (t.integral + (sp - pv) * t.dt)
        + t.kd * ((sp - pv - t.preError) / t.dt) = s.ki * u.integral := by
      rw [htkp, hkp, htki, htkd, hkd, huint, htdt]
      ring
    rw [this, htmx, htmn]
  · rw [huint]
    have hpos : 0 < (sp - pv) * s.dt := mul_pos he hdt
    have : t.integral < t.integral + (sp - pv) * s.dt := by linarith
    exact mul_lt_mul_of_pos_left this hki

/-- Witness for C5: pure-integral controller `ki = 1`, `dt = 1`, constant
error `1`, first pair of calls. -/
theorem C5_witness :
    (PID.init 0 1 0 1 10 (-10)).kp = 0 ∧
    (PID.init 0 1 0 1 10 (-10)).kd = 0 ∧
    0 < (PID.init 0 1 0 1 10 (-10)).ki ∧
    0 < (PID.init 0 1 0 1 10 (-10)).dt ∧
    (0 : ℚ) < 1 - 0 ∧
    (∃ t u : PID,
      (PID.init 0 1 0 1 10 (-10)).iterCalc 1 0 (0 + 1) = some t ∧
      (PID.init 0 1 0 1 10 (-10)).iterCalc 1 0 (0 + 2) = some u ∧
      t.calculate 1 0 =
        some (clamp ((PID.init 0 1 0 1 10 (-10)).ki * u.integral)
          (PID.init 0 1 0 1 10 (-10)).minOutput
          (PID.init 0 1 0 1 10 (-10)).maxOutput, u) ∧
      (PID.init 0 1 0 1 10 (-10)).ki * t.integral <
        (PID.init 0 1 0 1 10 (-10)).ki * u.integral) := by
  refine ⟨rfl, rfl, by norm_num [PID.init], by norm_num [PID.init],
    by norm_num, ?_⟩
  exact C5_integral_monotone (PID.init 0 1 0 1 10 (-10)) 1 0 0 rfl rfl
    (by norm_num [PID.init]) (by norm_num [PID.init]) (by norm_num)

/-- C6: the mock sensor's reading is `true_value` plus a perturbation lying
in the symmetric interval `[-1/2, 1/2]`, and `readValue` leaves the sensor
state untouched (side-effect-free, hence for any number of reads between
updates). -/
theorem C6_sensor_noise_bounded (s : MockSensor) (r : ℕ) :
    (s.readValue r).2 = s ∧
    -(1/2 : ℚ) ≤ (s.readValue r).1 - s.value ∧
    (s.readValue r).1 - s.value ≤ 1/2 := by
  have hlt : r % 100 < 100 := Nat.mod_lt r (by norm_num)
  have hle : ((r % 100 : ℕ) : ℚ) ≤ 99 := by
    exact_mod_cast Nat.le_of_lt_succ hlt
  have hnn : (0 : ℚ) ≤ ((r % 100 : ℕ) : ℚ) := Nat.cast_nonneg _
  refine ⟨rfl, ?_, ?_⟩
  · show -(1/2 : ℚ) ≤ s.value + (((r % 100 : ℕ) : ℚ) / 100 - 0.5) - s.value
    norm_num
    linarith
  · show s.value + (((r % 100 : ℕ) : ℚ) / 100 - 0.5) - s.value ≤ 1/2
    norm_num
    linarith

/-- C7: whenever `time_step > 0` (the stated construction precondition)
every `calculate` call is total — the division-by-zero branch of the
embedded `calculate` is unreachable — while the constructor itself accepts
`time_step = 0` without rejection. -/
theorem C7_derivative_division_safe :
    (∀ (s : PID) (sp pv : ℚ), 0 < s.dt → (s.calculate sp pv).isSome = true)
    ∧ (PID.init 0.6 0.01 0.05 0 100 (-100)).dt = 0 := by
  constructor
  · intro s sp pv h
    exact PID.calculate_ne_none s sp pv (ne_of_gt h)
  · rfl

/-- Witness for C7's totality clause at a concrete controller. -/
theorem C7_witness :
    0 < (PID.init 1 1 1 1 1 0).dt ∧
    ((PID.init 1 1 1 1 1 0).calculate 2 3).isSome = true := by
  refine ⟨by norm_num [PID.init], ?_⟩
  exact C7_derivative_division_safe.1 (PID.init 1 1 1 1 1 0) 2 3
    (by norm_num [PID.init])

/-- Every row the loop body emits from tick `i` onwards carries the target
selected by comparing its absolute tick index with `switch_step`. -/
theorem stepLoop_target (t1 t2 : ℚ) (switchStep : ℕ) (dt : ℚ)
    (noise : ℕ → ℕ) :
    ∀ (fuel i j : ℕ) (pid : PID) (sensor : MockSensor) (row : Telemetry),
      (stepLoop t1 t2 switchStep dt noise pid sensor i fuel).get? j =
        some row →
      row.target = if i + j < switchStep then t1 else t2 := by
  intro fuel
  induction fuel with
  | zero => intro i j pid sensor row h; simp [stepLoop] at h
  | succ fuel ih =>
    intro i j pid sensor row h
    rw [stepLoop] at h
    rcases hc : pid.calculate (if i < switchStep then t1 else t2)
        (sensor.readValue (noise i)).1 with - | op
    · rw [hc] at h
      simp at h
    · rw [hc] at h
      match j with
      | 0 =>
        simp only [List.get?_cons_zero, Option.some.injEq] at h
        rw [← h]
        simp [Nat.add_zero]
      | j + 1 =>
        simp only [List.get?_cons_succ] at h
        have := ih (i + 1) j op.2
          ((sensor.readValue (noise i)).2.update (op.1 * dt)) row h
        have harith : i + 1 + j = i + (j + 1) := by omega
        rwa [harith] at this

/-- C8: in the step-change driver, every telemetry row with tick index
`i < switch_step` records `target1` and every row with `i ≥ switch_step`
records `target2` — the change happens exactly at the boundary tick, for all
parameter values and noise streams. -/
theorem C8_schedule_boundary (Kp Ki Kd : ℚ) (steps : ℕ)
    (target1 target2 : ℚ) (switchStep : ℕ) (noise : ℕ → ℕ) (i : ℕ)
    (row : Telemetry)
    (h : (stepDriver Kp Ki Kd steps target1 target2 switchStep noise).get? i =
      some row) :
    row.target = if i < switchStep then target1 else target2 := by
  have := stepLoop_target target1 target2 switchStep (0.1 : ℚ) noise steps 0 i
    (PID.init Kp Ki Kd (0.1 : ℚ) 500 (-500)) ⟨0⟩ row h
  simpa using this

/-- Witness for C8: a 3-tick run switching at tick 2; the row at index 2
carries the second target. -/
theorem C8_witness :
    (stepDriver 0 0 0 3 50 100 2 (fun _ => 50)).get? 2 =
      some ⟨1/5, 100, 0, 0⟩ ∧
    (⟨1/5, 100, 0, 0⟩ : Telemetry).target =
      if 2 < 2 then (50 : ℚ) else 100 := by
  have h : (stepDriver 0 0 0 3 50 100 2 (fun _ => 50)).get? 2 =
      some ⟨1/5, 100, 0, 0⟩ := by
    norm_num [stepDriver, stepLoop, PID.init, PID.calculate, clamp,
      MockSensor.readValue, MockSensor.update]
  exact ⟨h, C8_schedule_boundary 0 0 0 3 50 100 2 (fun _ => 50) 2 _ h⟩

/-- Counterexample to C9 as stated, on the step-change variant: with only
the program name and one argument (`argc = 2`, arguments missing) the
defaults are used but no warning is printed; with `argc = 8` and an
unparsable fourth argument the gains already assigned (`Kp = 2, Ki = 3,
Kd = 4`) are kept from the command line, so the defaults are not used
wholesale; and with `argc = 9` (an arity the code never checks for exactly)
the first seven values are still consumed. -/
theorem C9_counterexample :
    (parseStepArgs 2 none none none none none none none).warned = false ∧
    parseStepArgs 8 (some 2) (some 3) (some 4) none none none none =
      { stepDefaults with Kp := 2, Ki := 3, Kd := 4, warned := true } ∧
    (parseStepArgs 8 (some 2) (some 3) (some 4) none none none none).Kp ≠
      stepDefaults.Kp ∧
    (parseStepArgs 9 (some 1) (some 1) (some 1) (some 1) (some 1) (some 1)
      (some 1)).Kp = 1 ∧
    (1 : ℚ) ≠ stepDefaults.Kp := by
  refine ⟨rfl, rfl, ?_, rfl, ?_⟩
  · norm_num [parseStepArgs, stepDefaults]
  · norm_num [stepDefaults]

/-- C9 (amended): for each driver variant, when the argument count is below
the variant's threshold the defaults are used wholesale and silently; at or
above the threshold (extra arguments being ignored) the positional values
are parsed in order — if all parse they are all taken and no warning is
printed, and wherever the first failing conversion occurs, the warning is
printed, the values assigned before the failure are kept from the command
line, and the failing and subsequent ones are left at their defaults.  Every
failure position of every variant is characterised. -/
theorem C9_argument_fallback :
    (∀ (argc : ℕ) a1 a2 a3 a4 a5 a6 a7, argc < 8 →
        parseStepArgs argc a1 a2 a3 a4 a5 a6 a7 = stepDefaults)
    ∧ (∀ (argc : ℕ) (v1 v2 v3 : ℚ) (v4 : ℤ) (v5 v6 : ℚ) (v7 : ℤ), 8 ≤ argc →
        parseStepArgs argc (some v1) (some v2) (some v3) (some v4) (some v5)
          (some v6) (some v7) = ⟨v1, v2, v3, v4, v5, v6, v7, false⟩)
    ∧ (∀ (argc : ℕ) a1 a2 a3 a4 a5 a6 a7, 8 ≤ argc →
        ((parseStepArgs argc a1 a2 a3 a4 a5 a6 a7).warned = true ↔
          a1 = none ∨ a2 = none ∨ a3 = none ∨ a4 = none ∨ a5 = none ∨
          a6 = none ∨ a7 = none))
    ∧ (∀ (argc : ℕ) a2 a3 a4 a5 a6 a7, 8 ≤ argc →
        parseStepArgs argc none a2 a3 a4 a5 a6 a7 =
          { stepDefaults with warned := true })
    ∧ (∀ (argc : ℕ) (v1 : ℚ) a3 a4 a5 a6 a7, 8 ≤ argc →
        parseStepArgs argc (some v1) none a3 a4 a5 a6 a7 =
          { stepDefaults with Kp := v1, warned := true })
    ∧ (∀ (argc : ℕ) (v1 v2 : ℚ) a4 a5 a6 a7, 8 ≤ argc →
        parseStepArgs argc (some v1) (some v2) none a4 a5 a6 a7 =
          { stepDefaults with Kp := v1, Ki := v2, warned := true })
    ∧ (∀ (argc : ℕ) (v1 v2 v3 : ℚ) a5 a6 a7, 8 ≤ argc →
        parseStepArgs argc (some v1) (some v2) (some v3) none a5 a6 a7 =
          { stepDefaults with Kp := v1, Ki := v2, Kd := v3, warned := true })
    ∧ (∀ (argc : ℕ) (v1 v2 v3 : ℚ) (v4 : ℤ) a6 a7, 8 ≤ argc →
        parseStepArgs argc (some v1) (some v2) (some v3) (some v4) none a6
          a7 =
          { stepDefaults with Kp := v1, Ki := v2, Kd := v3, steps := v4, warned := true })
    ∧ (∀ (argc : ℕ) (v1 v2 v3 : ℚ) (v4 : ℤ) (v5 : ℚ) a7, 8 ≤ argc →
        parseStepArgs argc (some v1) (some v2) (some v3) (some v4) (some v5)
          none a7 =
          { stepDefaults with Kp := v1, Ki := v2, Kd := v3, steps := v4, target1 := v5, warned := true })
    ∧ (∀ (argc : ℕ) (v1 v2 v3 : ℚ) (v4 : ℤ) (v5 v6 : ℚ), 8 ≤ argc →
        parseStepArgs argc (some v1) (some v2) (some v3) (some v4) (some v5)
          (some v6) none =
          { stepDefaults with Kp := v1, Ki := v2, Kd := v3, steps := v4, target1 := v5, target2 := v6, warned := true })
    ∧ (∀ (argc : ℕ) a1 a2 a3 a4, argc < 5 →
        parseConstArgs argc a1 a2 a3 a4 = constDefaults)
    ∧ (∀ (argc : ℕ) (v1 v2 v3 : ℚ) (v4 : ℤ), 5 ≤ argc →
        parseConstArgs argc (some v1) (some v2) (some v3) (some v4) =
          ⟨v1, v2, v3, v4, false⟩)
    ∧ (∀ (argc : ℕ) a1 a2 a3 a4, 5 ≤ argc →
        ((parseConstArgs argc a1 a2 a3 a4).warned = true ↔
          a1 = none ∨ a2 = none ∨ a3 = none ∨ a4 = none))
    ∧ (∀ (argc : ℕ) a2 a3 a4, 5 ≤ argc →
        parseConstArgs argc none a2 a3 a4 =
          { constDefaults with warned := true })
    ∧ (∀ (argc : ℕ) (v1 : ℚ) a3 a4, 5 ≤ argc →
        parseConstArgs argc (some v1) none a3 a4 =
          { constDefaults with Kp := v1, warned := true })
    ∧ (∀ (argc : ℕ) (v1 v2 : ℚ) a4, 5 ≤ argc →
        parseConstArgs argc (some v1) (some v2) none a4 =
          { constDefaults with Kp := v1, Ki := v2, warned := true })
    ∧ (∀ (argc : ℕ) (v1 v2 v3 : ℚ), 5 ≤ argc →
        parseConstArgs argc (some v1) (some v2) (some v3) none =
          { constDefaults with Kp := v1, Ki := v2, Kd := v3, warned := true })
    ∧ (∀ (argc : ℕ) a1 a2 a3 a4 a5, argc < 6 →
        parseTargetArgs argc a1 a2 a3 a4 a5 = targetDefaults)
    ∧ (∀ (argc : ℕ) (v1 v2 v3 : ℚ) (v4 : ℤ) (v5 : ℚ), 6 ≤ argc →
        parseTargetArgs argc (some v1) (some v2) (some v3) (some v4)
          (some v5) = ⟨v1, v2, v3, v4, v5, false⟩)
    ∧ (∀ (argc : ℕ) a1 a2 a3 a4 a5, 6 ≤ argc →
        ((parseTargetArgs argc a1 a2 a3 a4 a5).warned = true ↔
          a1 = none ∨ a2 = none ∨ a3 = none ∨ a4 = none ∨ a5 = none))
    ∧ (∀ (argc : ℕ) a2 a3 a4 a5, 6 ≤ argc →
        parseTargetArgs argc none a2 a3 a4 a5 =
          { targetDefaults with warned := true })
    ∧ (∀ (argc : ℕ) (v1 : ℚ) a3 a4 a5, 6 ≤ argc →
        parseTargetArgs argc (some v1) none a3 a4 a5 =
          { targetDefaults with Kp := v1, warned := true })
    ∧ (∀ (argc : ℕ) (v1 v2 : ℚ) a4 a5, 6 ≤ argc →
        parseTargetArgs argc (some v1) (some v2) none a4 a5 =
          { targetDefaults with Kp := v1, Ki := v2, warned := true })
    ∧ (∀ (argc : ℕ) (v1 v2 v3 : ℚ) a5, 6 ≤ argc →
        parseTargetArgs argc (some v1) (some v2) (some v3) none a5 =
          { targetDefaults with Kp := v1, Ki := v2, Kd := v3, warned := true })
    ∧ (∀ (argc : ℕ) (v1 v2 v3 : ℚ) (v4 : ℤ), 6 ≤ argc →
        parseTargetArgs argc (some v1) (some v2) (some v3) (some v4) none =
          { targetDefaults with Kp := v1, Ki := v2, Kd := v3, steps := v4, warned := true }) := by
  refine ⟨?_, ?_, ?_, ?_, ?_, ?_, ?_, ?_, ?_, ?_, ?_, ?_, ?_, ?_, ?_, ?_,
    ?_, ?_, ?_, ?_, ?_, ?_, ?_, ?_, ?_⟩
  · intro argc a1 a2 a3 a4 a5 a6 a7 h
    simp [parseStepArgs, Nat.not_le.mpr h]
  · intro argc v1 v2 v3 v4 v5 v6 v7 h
    simp [parseStepArgs, h]
  · intro argc a1 a2 a3 a4 a5 a6 a7 h
    rcases a1 with - | v1 <;> rcases a2 with - | v2 <;> rcases a3 with - | v3
      <;> rcases a4 with - | v4 <;> rcases a5 with - | v5
      <;> rcases a6 with - | v6 <;> rcases a7 with - | v7
      <;> simp [parseStepArgs, h]
  · intro argc a2 a3 a4 a5 a6 a7 h
    simp [parseStepArgs, h]
  · intro argc v1 a3 a4 a5 a6 a7 h
    simp [parseStepArgs, h]
  · intro argc v1 v2 a4 a5 a6 a7 h
    simp [parseStepArgs, h]
  · intro argc v1 v2 v3 a5 a6 a7 h
    simp [parseStepArgs, h]
  · intro argc v1 v2 v3 v4 a6 a7 h
    simp [parseStepArgs, h]
  · intro argc v1 v2 v3 v4 v5 a7 h
    simp [parseStepArgs, h]
  · intro argc v1 v2 v3 v4 v5 v6 h
    simp [parseStepArgs, h]
  · intro argc a1 a2 a3 a4 h
    simp [parseConstArgs, Nat.not_le.mpr h]
  · intro argc v1 v2 v3 v4 h
    simp [parseConstArgs, h]
  · intro argc a1 a2 a3 a4 h
    rcases a1 with - | v1 <;> rcases a2 with - | v2 <;> rcases a3 with - | v3
      <;> rcases a4 with - | v4 <;> simp [parseConstArgs, h]
  · intro argc a2 a3 a4 h
    simp [parseConstArgs, h]
  · intro argc v1 a3 a4 h
    simp [parseConstArgs, h]
  · intro argc v1 v2 a4 h
    simp [parseConstArgs, h]
  · intro argc v1 v2 v3 h
    simp [parseConstArgs, h]
  · intro argc a1 a2 a3 a4 a5 h
    simp [parseTargetArgs, Nat.not_le.mpr h]
  · intro argc v1 v2 v3 v4 v5 h
    simp [parseTargetArgs, h]
  · intro argc a1 a2 a3 a4 a5 h
    rcases a1 with - | v1 <;> rcases a2 with - | v2 <;> rcases a3 with - | v3
      <;> rcases a4 with - | v4 <;> rcases a5 with - | v5
      <;> simp [parseTargetArgs, h]
  · intro argc a2 a3 a4 a5 h
    simp [parseTargetArgs, h]
  · intro argc v1 a3 a4 a5 h
    simp [parseTargetArgs, h]
  · intro argc v1 v2 a4 a5 h
    simp [parseTargetArgs, h]
  · intro argc v1 v2 v3 a5 h
    simp [parseTargetArgs, h]
  · intro argc v1 v2 v3 v4 h
    simp [parseTargetArgs, h]

/-- Witness for the amended C9: a below-threshold call and an
above-threshold call failing at the second argument, both on the
step-change variant. -/
theorem C9_witness :
    ((2 : ℕ) < 8 ∧
      parseStepArgs 2 none none none none none none none = stepDefaults) ∧
    ((8 : ℕ) ≤ 8 ∧
      parseStepArgs 8 (some 2) none (some 4) (some 9) (some 1) (some 1)
        (some 7) = { stepDefaults with Kp := 2, warned := true }) := by
  constructor
  · exact ⟨by norm_num,
      C9_argument_fallback.1 2 none none none none none none none
        (by norm_num)⟩
  · exact ⟨by norm_num,
      C9_argument_fallback.2.2.2.2.1 8 2 (some 4) (some 9) (some 1) (some 1)
        (some 7) (by norm_num)⟩

/-- C10: the mock sensor's perturbation is exactly
`((rand mod 100) / 100) - 1/2` with `rand mod 100 < 100`, so it lies in
`[-1/2, 49/100]`: the endpoint `-1/2` is attained (e.g. when the random
source yields `0`) but `+1/2` never is — the realised noise interval is
asymmetric. -/
theorem C10_noise_asymmetric (s : MockSensor) (r : ℕ) :
    (s.readValue r).1 - s.value = ((r % 100 : ℕ) : ℚ) / 100 - 1/2 ∧
    r % 100 < 100 ∧
    -(1/2 : ℚ) ≤ (s.readValue r).1 - s.value ∧
    (s.readValue r).1 - s.value ≤ 49/100 ∧
    ((⟨0⟩ : MockSensor).readValue 0).1 - (⟨0⟩ : MockSensor).value =
      -(1/2 : ℚ) ∧
    (s.readValue r).1 - s.value ≠ 1/2 := by
  have hlt : r % 100 < 100 := Nat.mod_lt r (by norm_num)
  have hle : ((r % 100 : ℕ) : ℚ) ≤ 99 := by
    exact_mod_cast Nat.le_of_lt_succ hlt
  have hnn : (0 : ℚ) ≤ ((r % 100 : ℕ) : ℚ) := Nat.cast_nonneg _
  have heq : (s.readValue r).1 - s.value = ((r % 100 : ℕ) : ℚ) / 100 - 1/2 := by
    show s.value + (((r % 100 : ℕ) : ℚ) / 100 - 0.5) - s.value = _
    norm_num
  refine ⟨heq, hlt, ?_, ?_, by norm_num [MockSensor.readValue], ?_⟩
  · rw [heq]; linarith
  · rw [heq]; linarith
  · rw [heq]; intro hcontra; nlinarith

end AeroStream
